import Mathlib

deriving instance DecidableEq for Except

/-
  Shallow embedding of the PyNoeSmartmeter / noe_smartmeter client
  (src/src/PyNoeSmartmeter/client.py, src/src/noe_smartmeter/client.py).

  The embedding models the session/retry/aggregation logic of the two
  Smartmeter clients.  HTTP transport, JSON parsing and file I/O are external
  collaborators; they are represented by explicit environment records whose
  fields describe the observable outcome of each external interaction.
  Python exceptions are modelled with Except, Python None with Option, and
  mutation of the client object with explicit state passing.
-/

namespace Smartmeter

/-- Python exception classes that appear in the client code (raised or caught). -/
inductive PyExc
  | requestError
  | valueError
  | typeError
  | attributeError
  | keyError
  | indexError
  | loginError
  | connectionError
deriving DecidableEq

/-- A parsed datetime.datetime value; the formats used by the client never
produce microseconds, so they are omitted (always zero). -/
structure DateTime where
  year : Nat
  month : Nat
  day : Nat
  hour : Nat
  minute : Nat
  second : Nat
deriving DecidableEq

/-- A datetime.date value. -/
structure Date where
  year : Nat
  month : Nat
  day : Nat
deriving DecidableEq

/-- Embeds input_date.date(). -/
def DateTime.date (d : DateTime) : Date := ⟨d.year, d.month, d.day⟩

/-- Python datetime comparison a < b: lexicographic on the components. -/
def dtLtb (a b : DateTime) : Bool :=
  if a.year ≠ b.year then decide (a.year < b.year)
  else if a.month ≠ b.month then decide (a.month < b.month)
  else if a.day ≠ b.day then decide (a.day < b.day)
  else if a.hour ≠ b.hour then decide (a.hour < b.hour)
  else if a.minute ≠ b.minute then decide (a.minute < b.minute)
  else decide (a.second < b.second)

/-- Numeric value of a digit character. -/
def c2n (c : Char) : Nat := c.toNat - 48

/-- Reads a two-digit field (zero-padded, as produced by strftime). -/
def read2 : List Char → Option (Nat × List Char)
  | a :: b :: rest =>
      if a.isDigit ∧ b.isDigit then some (10 * c2n a + c2n b, rest) else none
  | _ => none

/-- Reads a four-digit field (zero-padded year). -/
def read4 : List Char → Option (Nat × List Char)
  | a :: b :: c :: d :: rest =>
      if a.isDigit ∧ b.isDigit ∧ c.isDigit ∧ d.isDigit then
        some (1000 * c2n a + 100 * c2n b + 10 * c2n c + c2n d, rest)
      else none
  | _ => none

/-- Consumes one expected literal character. -/
def expectChar (ch : Char) : List Char → Option (List Char)
  | c :: rest => if c = ch then some rest else none
  | [] => none

/-- Embeds datetime.strptime(s, "%d.%m.%Y %H:%M") on zero-padded input,
including the field range validation of strptime; failure stands for ValueError. -/
def strptimeInput (s : String) : Option DateTime := do
  let (d, r1) ← read2 s.toList
  let r2 ← expectChar '.' r1
  let (m, r3) ← read2 r2
  let r4 ← expectChar '.' r3
  let (y, r5) ← read4 r4
  let r6 ← expectChar ' ' r5
  let (hh, r7) ← read2 r6
  let r8 ← expectChar ':' r7
  let (mi, r9) ← read2 r8
  if r9 = [] ∧ 1 ≤ d ∧ d ≤ 31 ∧ 1 ≤ m ∧ m ≤ 12 ∧ hh ≤ 23 ∧ mi ≤ 59 then
    some ⟨y, m, d, hh, mi, 0⟩
  else none

/-- Embeds datetime.strptime(t, "%Y-%m-%dT%H:%M:%S") on zero-padded input,
the format used for the timestamps inside a day series. -/
def strptimeIso (s : String) : Option DateTime := do
  let (y, r1) ← read4 s.toList
  let r2 ← expectChar '-' r1
  let (m, r3) ← read2 r2
  let r4 ← expectChar '-' r3
  let (d, r5) ← read2 r4
  let r6 ← expectChar 'T' r5
  let (hh, r7) ← read2 r6
  let r8 ← expectChar ':' r7
  let (mi, r9) ← read2 r8
  let r10 ← expectChar ':' r9
  let (ss, r11) ← read2 r10
  if r11 = [] ∧ 1 ≤ d ∧ d ≤ 31 ∧ 1 ≤ m ∧ m ≤ 12 ∧ hh ≤ 23 ∧ mi ≤ 59 ∧ ss ≤ 61 then
    some ⟨y, m, d, hh, mi, ss⟩
  else none

/-- Zero-pads a number to two digits, as strftime does. -/
def pad2 (n : Nat) : String := if n < 10 then "0" ++ toString n else toString n

/-- Zero-pads a year to four digits, as strftime %Y does. -/
def pad4 (n : Nat) : String :=
  if n < 10 then "000" ++ toString n
  else if n < 100 then "00" ++ toString n
  else if n < 1000 then "0" ++ toString n
  else toString n

/-- Embeds input_date.strftime("%Y-%m-%d"), the key of a day fetch. -/
def fmtDay (d : DateTime) : String :=
  pad4 d.year ++ "-" ++ pad2 d.month ++ "-" ++ pad2 d.day

/-- Embeds current_date.strftime("%d.%m.%Y %H:%M") for a date object:
a date has no time-of-day, so %H and %M render as 00. -/
def fmtTs (d : Date) : String :=
  pad2 d.day ++ "." ++ pad2 d.month ++ "." ++ pad4 d.year ++ " 00:00"

/-- One bucket of a consumption series: a timestamp string zipped with a
metered value that may be null. -/
abbrev Bucket := String × Option Int

/-- Fetch environment seen by get_consumption_since_date: the results of the
three consumption accessors, which (per their own code) return plain lists. -/
structure Env where
  day : String → List Bucket
  month : Nat → Nat → List Bucket
  year : Nat → List Bucket

/-- A consumption fetch performed by the aggregator, recorded in order. -/
inductive FetchReq
  | day (key : String)
  | month (year month : Nat)
  | year (year : Nat)
deriving DecidableEq

/-- Result dict of the async get_consumption_since_date:
a timestamp key and a consumption key. -/
structure SinceResult where
  timestamp : String
  consumption : Int
deriving DecidableEq

/-- Embeds the intra-day loop of get_consumption_since_date (identical in both
files): for each (time, consumption) bucket, parse the timestamp (ValueError
on failure), and when it is strictly after input_date add the value to the
running sum; adding a null value raises TypeError, exactly as
energy_sum += None does. -/
def daySum (data : List Bucket) (input_date : DateTime) : Except PyExc Int :=
  match data with
  | [] => .ok 0
  | (time, consumption) :: rest =>
    match strptimeIso time with
    | none => .error .valueError
    | some formatted_time =>
      if dtLtb input_date formatted_time then
        match consumption with
        | none => .error .typeError
        | some c => (daySum rest input_date).map (fun s => c + s)
      else daySum rest input_date

/-- Embeds the prior-full-years loop of get_consumption_since_date:
start_year is input year + 1 when that does not exceed the current year,
and each fetched year series is summed skipping null values. -/
def priorYearsSum (env : Env) (inputYear todayYear : Nat) : Int :=
  let start_year := if inputYear + 1 ≤ todayYear then inputYear + 1 else inputYear
  ((List.range' start_year (todayYear + 1 - start_year)).map
    (fun y => (((env.year y).filterMap (fun v => v.2)).sum))).sum

/-- Fetch log of the prior-full-years loop. -/
def priorYearsLog (inputYear todayYear : Nat) : List FetchReq :=
  let start_year := if inputYear + 1 ≤ todayYear then inputYear + 1 else inputYear
  (List.range' start_year (todayYear + 1 - start_year)).map (fun y => .year y)

/-- Embeds PyNoeSmartmeter.Smartmeter.get_consumption_since_date.  today is
datetime.date.today(); the consumption accessors are the environment.  The
returned list records, in order, the consumption fetches that were performed.
Raised exceptions (ValueError from strptime, TypeError from a null addition)
appear as Except.error. -/
def get_consumption_since_date (env : Env) (today : Date) (input_date_string : String)
    (offset : Int) : Except PyExc SinceResult × List FetchReq :=
  match strptimeInput input_date_string with
  | none => (.error .valueError, [])
  | some input_date =>
    if today = input_date.date then (.ok ⟨input_date_string, offset⟩, [])
    else
      let dayKey := fmtDay input_date
      let day_data := env.day dayKey
      match daySum day_data input_date with
      | .error e => (.error e, [.day dayKey])
      | .ok daySumVal =>
        let month_data := env.month input_date.year input_date.month
        let monthSumVal := ((month_data.drop input_date.day).filterMap (fun v => v.2)).sum
        let start_index := input_date.month
        let end_index := if input_date.year = today.year then today.month - 1 else 12
        let year_data := env.year input_date.year
        let yearSumVal :=
          (((year_data.drop start_index).take (end_index - start_index)).filterMap
            (fun v => v.2)).sum
        let priorVal :=
          if input_date.year ≠ today.year then priorYearsSum env input_date.year today.year
          else 0
        let priorLog :=
          if input_date.year ≠ today.year then priorYearsLog input_date.year today.year
          else []
        (.ok ⟨fmtTs today, daySumVal + monthSumVal + yearSumVal + priorVal + offset⟩,
         [.day dayKey, .month input_date.year input_date.month, .year input_date.year]
           ++ priorLog)

/-- Embeds noe_smartmeter.Smartmeter.get_consumption_since_date, whose body is
identical to the async one except that the result is the tuple
(timestamp, consumption) rather than a dict. -/
def get_consumption_since_date_noe (env : Env) (today : Date) (input_date_string : String)
    (offset : Int) : Except PyExc (String × Int) × List FetchReq :=
  match strptimeInput input_date_string with
  | none => (.error .valueError, [])
  | some input_date =>
    if today = input_date.date then (.ok (input_date_string, offset), [])
    else
      let dayKey := fmtDay input_date
      let day_data := env.day dayKey
      match daySum day_data input_date with
      | .error e => (.error e, [.day dayKey])
      | .ok daySumVal =>
        let month_data := env.month input_date.year input_date.month
        let monthSumVal := ((month_data.drop input_date.day).filterMap (fun v => v.2)).sum
        let start_index := input_date.month
        let end_index := if input_date.year = today.year then today.month - 1 else 12
        let year_data := env.year input_date.year
        let yearSumVal :=
          (((year_data.drop start_index).take (end_index - start_index)).filterMap
            (fun v => v.2)).sum
        let priorVal :=
          if input_date.year ≠ today.year then priorYearsSum env input_date.year today.year
          else 0
        let priorLog :=
          if input_date.year ≠ today.year then priorYearsLog input_date.year today.year
          else []
        (.ok (fmtTs today, daySumVal + monthSumVal + yearSumVal + priorVal + offset),
         [.day dayKey, .month input_date.year input_date.month, .year input_date.year]
           ++ priorLog)

/-- Outcome of one run of _call_api, observed from outside: which response the
method returned (by its index in the response stream) and how many
re-authentication attempts happened; noResult is the implicit return None when
the while loop exits; outOfFuel means the loop was still running after
fuel iterations. -/
inductive CallResult
  | success (respIdx : Nat) (auths : Nat)
  | noResult (auths : Nat)
  | outOfFuel
deriving DecidableEq

/-- Embeds the while loop of _call_api (identical in both files): resps i is
the HTTP status of the i-th GET issued by the loop; i is the index of the next
GET, rc the current retry_count, auths the number of authenticate calls so
far.  fuel bounds the number of loop iterations evaluated. -/
def callApiAux (resps : Nat → Nat) : Nat → Nat → Nat → Nat → CallResult
  | 0, _, _, _ => .outOfFuel
  | fuel + 1, i, rc, auths =>
    if rc < 1 then
      let status := resps i
      if status = 401 then callApiAux resps fuel (i + 1) (rc + 1) (auths + 1)
      else if status = 200 then .success i auths
      else callApiAux resps fuel (i + 1) rc auths
    else .noResult auths

/-- Runs the _call_api retry loop from its initial state retry_count = 0. -/
def callApi (resps : Nat → Nat) (fuel : Nat) : CallResult :=
  callApiAux resps fuel 0 0 0

/-- Outcome of one GET issued during session validation: either the
status code of the response, or the exception raised by the transport. -/
inductive GetOutcome
  | status (code : Nat)
  | raised (e : PyExc)
deriving DecidableEq

/-- Mutable state of the async client relevant to authentication: the owned
credentials, the live session handle (None before authentication) and the
persisted session blob (None if the session file is absent).  Session handles
and blobs are opaque, modelled by numbers. -/
structure ClientState where
  username : String
  password : String
  session : Option Nat
  fileBlob : Option Nat
deriving DecidableEq

/-- External-world outcomes consumed by one run of authenticate:
the result of the validation GET on a session restored from the file, the
handle of the client built from the stored cookies, the status of the login
POST, and the handle of the freshly built client. -/
structure AuthEnv where
  checkOutcome : GetOutcome
  restoredSession : Nat
  loginStatus : Nat
  freshSession : Nat
deriving DecidableEq

/-- Embeds PyNoeSmartmeter.Smartmeter._check_session: True iff the validation
GET returns 200; only TypeError is caught (yielding False), every other
exception propagates. -/
def check_session (o : GetOutcome) : Except PyExc Bool :=
  match o with
  | .status code => .ok (decide (code = 200))
  | .raised e => if e = .typeError then .ok false else .error e

/-- Embeds PyNoeSmartmeter.Smartmeter._load_check_session: if a session file
exists, restore a client from it and validate; on success adopt it as the live
session and return True, otherwise return False.  Exceptions from
_check_session propagate with the state unchanged. -/
def load_check_session (env : AuthEnv) (st : ClientState) :
    ClientState × Except PyExc Bool :=
  match st.fileBlob with
  | some _ =>
    match check_session env.checkOutcome with
    | .error e => (st, .error e)
    | .ok true => ({ st with session := some env.restoredSession }, .ok true)
    | .ok false => (st, .ok false)
  | none => (st, .ok false)

/-- Embeds PyNoeSmartmeter.Smartmeter._clear_stored_session: removes the
persisted blob, a no-op when absent. -/
def clear_stored_session (st : ClientState) : ClientState :=
  { st with fileBlob := none }

/-- Embeds the opening lines of PyNoeSmartmeter.Smartmeter.authenticate:
each credential argument that is supplied overwrites the stored credential and
clears the persisted session. -/
def applyCreds (username password : Option String) (st : ClientState) : ClientState :=
  let st1 :=
    match username with
    | some name => clear_stored_session { st with username := name }
    | none => st
  match password with
  | some pwd => clear_stored_session { st1 with password := pwd }
  | none => st1

/-- Embeds PyNoeSmartmeter.Smartmeter.authenticate: after the credential step,
a stored session is loaded and validated; if that fails, a fresh login is
performed: status 200 persists and adopts the new session, 401 raises
SmartmeterLoginError, anything else raises SmartmeterConnectionError.  The
result pairs the client state at return (or raise) time with the outcome. -/
def authenticate (username password : Option String) (env : AuthEnv)
    (st : ClientState) : ClientState × Except PyExc Bool :=
  match load_check_session env (applyCreds username password st) with
  | (st3, .error e) => (st3, .error e)
  | (st3, .ok true) => (st3, .ok true)
  | (st3, .ok false) =>
    if env.loginStatus = 200 then
      ({ st3 with fileBlob := some env.freshSession, session := some env.freshSession },
       .ok true)
    else if env.loginStatus = 401 then (st3, .error .loginError)
    else (st3, .error .connectionError)

/-- JSON values, used to model response.json() payloads. -/
inductive Json
  | null
  | num (n : Int)
  | str (s : String)
  | arr (xs : List Json)
  | obj (kvs : List (String × Json))

/-- Embeds the Python subscript j[0]: indexing a list yields its first element
or IndexError; a one-character slice for a string; KeyError for a dict without
that key; TypeError otherwise. -/
def Json.index0 : Json → Except PyExc Json
  | .arr (x :: _) => .ok x
  | .arr [] => .error .indexError
  | .str s =>
    match s.toList with
    | [] => .error .indexError
    | c :: _ => .ok (.str (String.mk [c]))
  | .obj _ => .error .keyError
  | _ => .error .typeError

/-- Embeds the Python subscript j[k] for a string key k: dict lookup with
KeyError when missing, TypeError on any non-dict. -/
def Json.key (j : Json) (k : String) : Except PyExc Json :=
  match j with
  | .obj kvs =>
    match kvs.lookup k with
    | some v => .ok v
    | none => .error .keyError
  | _ => .error .typeError

/-- Embeds iterating a Python value (as zip does): lists iterate their
elements, strings their characters, dicts their keys; numbers and None raise
TypeError. -/
def Json.toIter : Json → Except PyExc (List Json)
  | .arr xs => .ok xs
  | .str s => .ok (s.toList.map (fun c => .str (String.mk [c])))
  | .obj kvs => .ok (kvs.map (fun kv => .str kv.1))
  | _ => .error .typeError

/-- Observable outcome of the response = _call_api(...) line followed by
response.json() inside an accessor: an exception raised while obtaining or
decoding the response (transport RequestError, decode ValueError, or an
exception propagating out of authenticate), the None that _call_api yields
when its loop falls through, or a decoded body. -/
inductive FetchOutcome
  | raised (e : PyExc)
  | noneResp
  | ok (body : Json)

/-- Embeds the except (RequestError, ValueError) clause wrapped around each
consumption accessor body: those two exceptions become an empty series, every
other outcome passes through. -/
def swallowRV (r : Except PyExc (List (Json × Json))) : Except PyExc (List (Json × Json)) :=
  match r with
  | .error .requestError => .ok []
  | .error .valueError => .ok []
  | other => other

/-- Embeds the body of the async day accessor after response.json():
data = body[0]; list(zip(data[timesKey], data[valsKey])). -/
def zipBodyFirst (body : Json) (timesKey valsKey : String) :
    Except PyExc (List (Json × Json)) := do
  let data ← body.index0
  let times ← data.key timesKey
  let vals ← data.key valsKey
  let tlist ← times.toIter
  let vlist ← vals.toIter
  .ok (tlist.zip vlist)

/-- Embeds the body of the sync day accessor after response.json():
data = body; list(zip(data[timesKey], data[valsKey])). -/
def zipBody (body : Json) (timesKey valsKey : String) :
    Except PyExc (List (Json × Json)) := do
  let times ← body.key timesKey
  let vals ← body.key valsKey
  let tlist ← times.toIter
  let vlist ← vals.toIter
  .ok (tlist.zip vlist)

/-- Embeds PyNoeSmartmeter.Smartmeter.get_consumption_per_day (with the
metering point id already cached): response.json()[0] is unpacked and the
peakDemandTimes and meteredValues arrays are zipped; a None response raises
AttributeError at response.json(); RequestError and ValueError are caught. -/
def pynoe_consumption_per_day (o : FetchOutcome) : Except PyExc (List (Json × Json)) :=
  swallowRV (match o with
    | .raised e => .error e
    | .noneResp => .error .attributeError
    | .ok body => zipBodyFirst body "peakDemandTimes" "meteredValues")

/-- Embeds PyNoeSmartmeter.Smartmeter.get_consumption_for_month, whose body is
the same shape as the day accessor. -/
def pynoe_consumption_for_month (o : FetchOutcome) : Except PyExc (List (Json × Json)) :=
  swallowRV (match o with
    | .raised e => .error e
    | .noneResp => .error .attributeError
    | .ok body => zipBodyFirst body "peakDemandTimes" "meteredValues")

/-- Embeds PyNoeSmartmeter.Smartmeter.get_consumption_for_year: values come
from the values key; response.raise_for_status() on a None response raises
AttributeError (and is a no-op on the 200 responses _call_api returns). -/
def pynoe_consumption_for_year (o : FetchOutcome) : Except PyExc (List (Json × Json)) :=
  swallowRV (match o with
    | .raised e => .error e
    | .noneResp => .error .attributeError
    | .ok body => zipBodyFirst body "peakDemandTimes" "values")

/-- Embeds noe_smartmeter.Smartmeter.get_consumption_per_day: identical to the
async accessor except that data = response.json() is used directly, without
taking the first element. -/
def noe_consumption_per_day (o : FetchOutcome) : Except PyExc (List (Json × Json)) :=
  swallowRV (match o with
    | .raised e => .error e
    | .noneResp => .error .attributeError
    | .ok body => zipBody body "peakDemandTimes" "meteredValues")

/-- Embeds noe_smartmeter.Smartmeter.get_consumption_for_month. -/
def noe_consumption_for_month (o : FetchOutcome) : Except PyExc (List (Json × Json)) :=
  swallowRV (match o with
    | .raised e => .error e
    | .noneResp => .error .attributeError
    | .ok body => zipBody body "peakDemandTimes" "meteredValues")

/-- Embeds noe_smartmeter.Smartmeter.get_consumption_for_year. -/
def noe_consumption_for_year (o : FetchOutcome) : Except PyExc (List (Json × Json)) :=
  swallowRV (match o with
    | .raised e => .error e
    | .noneResp => .error .attributeError
    | .ok body => zipBody body "peakDemandTimes" "values")

/-- Specification-side well-formedness of a day bucket relative to the input
datetime: its timestamp parses, and when the bucket lies strictly after the
input its value is non-null. -/
def bucketOk (d : DateTime) (b : Bucket) : Bool :=
  match strptimeIso b.1 with
  | none => false
  | some t => !(dtLtb d t) || b.2.isSome

/-- Specification-side sum of exactly the buckets whose timestamp is strictly
after the input datetime. -/
def afterSum (d : DateTime) (data : List Bucket) : Int :=
  (data.filterMap (fun b =>
    match strptimeIso b.1 with
    | some t => if dtLtb d t then b.2 else none
    | none => none)).sum

/-- Specification-side sum of the non-null values of the buckets whose 0-based
index is at least start: the head has index 0 and the bound shifts down along
the tail. -/
def idxSumFrom : List Bucket → Nat → Int
  | [], _ => 0
  | b :: rest, start =>
    (if start = 0 then b.2.getD 0 else 0) + idxSumFrom rest (start - 1)

/-- Specification-side sum of the non-null values of the buckets whose 0-based
index i satisfies start ≤ i < stop. -/
def idxSum : List Bucket → Nat → Nat → Int
  | [], _, _ => 0
  | b :: rest, start, stop =>
    (if start = 0 ∧ 0 < stop then b.2.getD 0 else 0) + idxSum rest (start - 1) (stop - 1)

/-- Day series of the worked aggregation example in the spec. -/
def exDayData : List Bucket :=
  [("2024-01-10T05:00:00", some 2), ("2024-01-10T06:00:00", some 3)]

/-- Environment whose every fetch returns an empty series. -/
def envEmpty : Env := ⟨fun _ => [], fun _ _ => [], fun _ => []⟩

/-- Environment whose day series contains a null bucket after 05:30. -/
def envC3 : Env := ⟨fun _ => [("2024-01-10T06:00:00", none)], fun _ _ => [], fun _ => []⟩

/-- Environment with month and year series exercising the slice bounds,
null buckets included. -/
def envC5 : Env :=
  ⟨fun _ => [],
   fun _ _ => [("m0", some 1), ("m1", some 2), ("m2", some 3), ("m3", none), ("m4", some 5)],
   fun _ => [("y0", some 10), ("y1", some 20), ("y2", none), ("y3", some 40)]⟩

/-- A decoded response body of the shape the async accessors expect: an array
whose first element is the record with the two parallel arrays. -/
def c9Body : Json :=
  .arr [.obj [("peakDemandTimes", .arr []), ("meteredValues", .arr [])]]

/-- Authentication world where the stored-session validation GET raises a
network-level RequestError and a login would succeed. -/
def envC8 : AuthEnv := ⟨.raised .requestError, 1, 200, 2⟩

/-- Authentication world where the stored-session validation GET raises
TypeError and the login succeeds. -/
def envC8w : AuthEnv := ⟨.raised .typeError, 1, 200, 2⟩

/-- Client state holding a persisted session blob and no live session. -/
def stC8 : ClientState := ⟨"user", "pw", none, some 5⟩

/-- Authentication world where the stored session is rejected with status 500
and the fresh login is rejected with status 401. -/
def envC10 : AuthEnv := ⟨.status 500, 1, 401, 2⟩

theorem filterMap_snd_sum_cons (b : Bucket) (l : List Bucket) :
    ((List.filterMap (fun x => x.2) (b :: l)).sum : Int)
      = b.2.getD 0 + (List.filterMap (fun x => x.2) l).sum := by
  cases h : b.2 <;> simp [List.filterMap_cons, h]

theorem idxSumFrom_eq_drop (l : List Bucket) :
    ∀ k, idxSumFrom l k = ((l.drop k).filterMap (fun x => x.2)).sum := by
  induction l with
  | nil => intro k; simp [idxSumFrom]
  | cons b t ih =>
    intro k
    cases k with
    | zero => simp [idxSumFrom, ih 0, filterMap_snd_sum_cons]
    | succ n => simpa [idxSumFrom] using ih n

theorem idxSum_stop_zero (l : List Bucket) : ∀ s, idxSum l s 0 = 0 := by
  induction l with
  | nil => intro s; simp [idxSum]
  | cons b t ih => intro s; simp [idxSum, ih]

theorem idxSum_eq_slice (l : List Bucket) :
    ∀ a b, idxSum l a b = (((l.drop a).take (b - a)).filterMap (fun x => x.2)).sum := by
  induction l with
  | nil => intro a b; simp [idxSum]
  | cons x t ih =>
    intro a b
    cases a with
    | zero =>
      cases b with
      | zero => simp [idxSum, idxSum_stop_zero]
      | succ m => simp [idxSum, ih 0 m, filterMap_snd_sum_cons]
    | succ n =>
      have h : b - (n + 1) = b - 1 - n := by omega
      simp [idxSum, ih n (b - 1), h]

/-- C4: the intra-day remainder of get_consumption_since_date sums exactly the
day-series buckets whose timestamp is strictly after the input timestamp:
whenever every bucket timestamp parses and every bucket lying strictly after
the input has a non-null value, the loop embedded by daySum returns the
specification-side afterSum, the sum over exactly the strictly-later
buckets. -/
theorem c4_intra_day_strictly_after (data : List Bucket) (d : DateTime)
    (h : ∀ b ∈ data, bucketOk d b = true) :
    daySum data d = .ok (afterSum d data) := by
  induction data with
  | nil => simp [daySum, afterSum]
  | cons b t ih =>
    have hb : bucketOk d b = true := h b (by simp)
    have ht : ∀ x ∈ t, bucketOk d x = true := fun x hx => h x (by simp [hx])
    obtain ⟨time, v⟩ := b
    unfold bucketOk at hb
    cases hp : strptimeIso time with
    | none => rw [hp] at hb; simp at hb
    | some ft =>
      rw [hp] at hb
      by_cases hlt : dtLtb d ft = true
      · have hv : v.isSome := by
          simp only [hlt] at hb
          simpa using hb
        obtain ⟨c, hc⟩ := Option.isSome_iff_exists.mp hv
        subst hc
        simp [daySum, afterSum, hp, hlt, ih ht, List.filterMap_cons, Except.map]
      · have hlt2 : dtLtb d ft = false := by
          cases hq : dtLtb d ft
          · rfl
          · exact absurd hq hlt
        simp [daySum, afterSum, hp, hlt2, ih ht, List.filterMap_cons]

theorem callApiAux_const_500 (fuel : Nat) :
    ∀ i auths, callApiAux (fun _ => 500) fuel i 0 auths = .outOfFuel := by
  induction fuel with
  | zero => intro i auths; rfl
  | succ n ih => intro i auths; simpa [callApiAux] using ih (i + 1) auths

theorem load_check_session_cases (env : AuthEnv) (st : ClientState) :
    load_check_session env st = (st, .ok false)
  ∨ load_check_session env st = ({ st with session := some env.restoredSession }, .ok true)
  ∨ ∃ e, load_check_session env st = (st, .error e) := by
  cases hf : st.fileBlob with
  | none => left; simp [load_check_session, hf]
  | some b =>
    cases hc : check_session env.checkOutcome with
    | error e => right; right; exact ⟨e, by simp [load_check_session, hf, hc]⟩
    | ok v =>
      cases v
      · left; simp [load_check_session, hf, hc]
      · right; left; simp [load_check_session, hf, hc]

theorem applyCreds_none (st : ClientState) : applyCreds none none st = st := rfl

theorem authenticate_error_state (env : AuthEnv) (st st2 : ClientState) (e : PyExc)
    (h : authenticate none none env st = (st2, .error e)) : st2 = st := by
  unfold authenticate at h
  rw [applyCreds_none] at h
  rcases load_check_session_cases env st with hl | hl | ⟨e2, hl⟩ <;> rw [hl] at h
  · by_cases h200 : env.loginStatus = 200 <;>
      by_cases h401 : env.loginStatus = 401 <;>
      simp [h200, h401, Prod.ext_iff] at h <;>
      exact h.1.symm
  · simp [Prod.ext_iff] at h
  · simp only [Prod.ext_iff] at h
    exact h.1.symm

/-- C1: the claim that _call_api terminates for every sequence of response
statuses fails on the code: when the server persistently returns a status
other than 200 and 401 (here 500), neither branch of the loop body runs, so
retry_count is never incremented and nothing is returned; the while loop runs
forever — after any number of allowed iterations it is still running. -/
theorem c1_call_api_unbounded (fuel : Nat) :
    callApi (fun _ => 500) fuel = .outOfFuel :=
  callApiAux_const_500 fuel 0 0

/-- C2: evaluating the _call_api loop on the response sequences of the claim:
on [401, 401] and on [401, 200] alike, the first 401 triggers one
re-authentication and sets retry_count to 1, which makes the while condition
fail, so the method returns None after exactly one re-authentication; in
particular on [401, 200] the call is never retried and does not return the 200
response, contradicting the second half of the claim. -/
theorem c2_retry_sequences :
    callApi (fun i => if i = 0 then 401 else 200) 10 = .noResult 1
  ∧ callApi (fun _ => 401) 10 = .noResult 1 := by decide

/-- C3: the claim that every summation of get_consumption_since_date excludes
null buckets without raising fails on the code: with a day series containing a
null bucket after the input timestamp, the intra-day loop executes
energy_sum += None and raises TypeError after the single day fetch. -/
theorem c3_day_null_raises :
    get_consumption_since_date envC3 ⟨2025, 10, 12⟩ "10.01.2024 05:30" 0
      = (.error .typeError, [.day "2024-01-10"]) := by decide

/-- C4 witness: the worked example of the spec, via the real string parsers: the
input timestamp parses to 2024-01-10 05:30 and only the 06:00 bucket (value 3)
contributes to the intra-day remainder. -/
theorem c4_intra_day_witness :
    strptimeInput "10.01.2024 05:30" = some ⟨2024, 1, 10, 5, 30, 0⟩
  ∧ daySum exDayData ⟨2024, 1, 10, 5, 30, 0⟩ = .ok 3 := by
  refine ⟨by decide, ?_⟩
  rw [c4_intra_day_strictly_after exDayData ⟨2024, 1, 10, 5, 30, 0⟩ (by decide)]
  decide

/-- C5: the consumption computed by get_consumption_since_date decomposes into
the day part plus the sum of the month-series buckets whose 0-based index is
at least input day, plus the sum of the year-series buckets whose 0-based
index i satisfies month ≤ i < 12 (or < current month − 1 when the input year
is the current year), plus the prior-years part and the offset. -/
theorem c5_month_year_slices (env : Env) (today : Date) (s : String) (offset : Int)
    (d : DateTime) (e1 : Int)
    (hp : strptimeInput s = some d)
    (hnd : today ≠ d.date)
    (hday : daySum (env.day (fmtDay d)) d = .ok e1) :
    (get_consumption_since_date env today s offset).1
      = .ok ⟨fmtTs today,
          e1 + idxSumFrom (env.month d.year d.month) d.day
            + idxSum (env.year d.year) d.month
                (if d.year = today.year then today.month - 1 else 12)
            + (if d.year ≠ today.year then priorYearsSum env d.year today.year else 0)
            + offset⟩ := by
  simp only [get_consumption_since_date, hp, if_neg hnd, hday]
  rw [idxSumFrom_eq_drop, idxSum_eq_slice]

/-- C5 witness: a concrete run in which the month slice keeps exactly the
buckets from index 2 (input day) onward and the year slice exactly the buckets
at indices 1 and 2 (input month 1 up to current month 4 minus 1), null buckets
skipped. -/
theorem c5_month_year_slices_witness :
    (get_consumption_since_date envC5 ⟨2024, 4, 15⟩ "02.01.2024 05:30" 100).1
      = .ok ⟨"15.04.2024 00:00", 128⟩ := by
  rw [c5_month_year_slices envC5 ⟨2024, 4, 15⟩ "02.01.2024 05:30" 100
    ⟨2024, 1, 2, 5, 30, 0⟩ 0 (by decide) (by decide) (by decide)]
  decide

/-- C6: when the calendar date of the input timestamp equals the current date,
get_consumption_since_date returns the offset unchanged, timestamped with the
original input string, and the fetch log is empty: no consumption fetch is
performed. -/
theorem c6_same_day_short_circuit (env : Env) (today : Date) (s : String)
    (offset : Int) (d : DateTime)
    (hp : strptimeInput s = some d) (hd : today = d.date) :
    get_consumption_since_date env today s offset = (.ok ⟨s, offset⟩, []) := by
  simp [get_consumption_since_date, hp, hd]

/-- C6 witness: the same-day example of the spec with offset 5. -/
theorem c6_same_day_short_circuit_witness :
    get_consumption_since_date envEmpty ⟨2024, 1, 10⟩ "10.01.2024 05:30" 5
      = (.ok ⟨"10.01.2024 05:30", 5⟩, []) :=
  c6_same_day_short_circuit envEmpty ⟨2024, 1, 10⟩ "10.01.2024 05:30" 5
    ⟨2024, 1, 10, 5, 30, 0⟩ (by decide) (by decide)

/-- C7 counterexample: when the API caller yields no usable response (returns
None), each async consumption accessor evaluates response.json() on None,
which raises AttributeError; AttributeError is not in the except clause, so
the accessor propagates the exception instead of returning an empty series. -/
theorem c7_none_response_counterexample :
    pynoe_consumption_per_day .noneResp = .error .attributeError
  ∧ pynoe_consumption_for_month .noneResp = .error .attributeError
  ∧ pynoe_consumption_for_year .noneResp = .error .attributeError
  ∧ pynoe_consumption_per_day .noneResp ≠ .ok [] :=
  ⟨rfl, rfl, rfl, fun h => Except.noConfusion h⟩

/-- C7 as amended: a transport failure (RequestError) or a parse failure
(ValueError) inside any of the six consumption accessors is swallowed and
converted to an empty series; only those two exception classes are caught. -/
theorem c7_transport_parse_swallowed (e : PyExc)
    (h : e = .requestError ∨ e = .valueError) :
    pynoe_consumption_per_day (.raised e) = .ok []
  ∧ pynoe_consumption_for_month (.raised e) = .ok []
  ∧ pynoe_consumption_for_year (.raised e) = .ok []
  ∧ noe_consumption_per_day (.raised e) = .ok []
  ∧ noe_consumption_for_month (.raised e) = .ok []
  ∧ noe_consumption_for_year (.raised e) = .ok [] := by
  rcases h with rfl | rfl <;> exact ⟨rfl, rfl, rfl, rfl, rfl, rfl⟩

/-- C7 witness: a RequestError in the day accessor yields an empty series. -/
theorem c7_transport_parse_swallowed_witness :
    pynoe_consumption_per_day (.raised .requestError) = .ok [] :=
  (c7_transport_parse_swallowed .requestError (Or.inl rfl)).1

/-- C8 counterexample: a network-level failure (RequestError) raised by the
validation GET on a stored session is not caught by the except TypeError
clause of _check_session, so it propagates out of authenticate instead of
falling through to a fresh login. -/
theorem c8_network_error_propagates :
    authenticate none none envC8 stC8 = (stC8, .error .requestError) := by decide

/-- C8 as amended: a TypeError raised during validation of a stored session is
treated as session-invalid and control falls through to a fresh login, which
(on login status 200) adopts and persists the fresh session. -/
theorem c8_typeerror_falls_through (env : AuthEnv) (st : ClientState) (b : Nat)
    (hfile : st.fileBlob = some b)
    (hcheck : env.checkOutcome = .raised .typeError)
    (hlogin : env.loginStatus = 200) :
    authenticate none none env st
      = ({ st with session := some env.freshSession, fileBlob := some env.freshSession },
         .ok true) := by
  simp [authenticate, applyCreds_none, load_check_session, check_session,
    hfile, hcheck, hlogin]

/-- C8 witness: the amended behaviour at a concrete world and state. -/
theorem c8_typeerror_falls_through_witness :
    authenticate none none envC8w stC8
      = ({ stC8 with
            session := some envC8w.freshSession
            fileBlob := some envC8w.freshSession }, .ok true) :=
  c8_typeerror_falls_through envC8w stC8 5 (by decide) (by decide) (by decide)

/-- C9 counterexample: the synchronous and asynchronous consumption accessors
disagree on the very same decoded response body: the async accessor takes the
first element of the payload array and succeeds, while the sync accessor
subscripts the array with a string key and raises TypeError, which is not
caught. -/
theorem c9_accessor_divergence :
    pynoe_consumption_per_day (.ok c9Body) = .ok []
  ∧ noe_consumption_per_day (.ok c9Body) = .error .typeError
  ∧ pynoe_consumption_per_day (.ok c9Body) ≠ noe_consumption_per_day (.ok c9Body) :=
  ⟨rfl, rfl, fun h => Except.noConfusion h⟩

/-- C9 as amended: the aggregation logic of the two implementations does
coincide: on identical fetch environments, the sync get_consumption_since_date
returns exactly the async result repackaged from a dict into a tuple, with the
same raised exceptions and the same fetch sequence. -/
theorem c9_aggregator_equivalence (env : Env) (today : Date) (s : String)
    (offset : Int) :
    (get_consumption_since_date_noe env today s offset).1
        = (get_consumption_since_date env today s offset).1.map
            (fun r => (r.timestamp, r.consumption))
      ∧ (get_consumption_since_date_noe env today s offset).2
        = (get_consumption_since_date env today s offset).2 := by
  unfold get_consumption_since_date get_consumption_since_date_noe
  cases hp : strptimeInput s with
  | none => simp [Except.map]
  | some d =>
    by_cases hd : today = d.date
    · simp [hd, Except.map]
    · simp only [if_neg hd]
      cases hds : daySum (env.day (fmtDay d)) d with
      | error e => simp [Except.map]
      | ok e1 => simp [Except.map]

/-- C10: when authenticate is called without new credential arguments and
fails with SmartmeterLoginError or SmartmeterConnectionError, the client state
is unchanged: the live session handle keeps its prior value and no new session
blob is written. -/
theorem c10_auth_error_state_unchanged (env : AuthEnv) (st st2 : ClientState)
    (e : PyExc)
    (_he : e = .loginError ∨ e = .connectionError)
    (h : authenticate none none env st = (st2, .error e)) :
    st2.session = st.session ∧ st2.fileBlob = st.fileBlob := by
  rw [authenticate_error_state env st st2 e h]
  exact ⟨rfl, rfl⟩

/-- C10 witness: a stored session rejected with status 500 followed by a login
rejected with 401 raises SmartmeterLoginError with the state untouched. -/
theorem c10_auth_error_state_unchanged_witness :
    authenticate none none envC10 stC8 = (stC8, .error .loginError)
  ∧ stC8.session = stC8.session ∧ stC8.fileBlob = stC8.fileBlob :=
  ⟨by decide,
   c10_auth_error_state_unchanged envC10 stC8 stC8 .loginError (Or.inl rfl) (by decide)⟩

end Smartmeter
